import Mathlib

/-!
Verification of the MySynthesiaCanvas chat front-end.

The development shallowly embeds the two source files the claims are about:

* `streamlit_mcp_chatbot.py` — the slash-command dispatch (lines 327-400),
  the Obsidian/vault HTTP adapters and the Docker adapters.  Python strings
  are modelled as `List Char`; the Python string operations used by the
  dispatch (`strip`, `lower`, `startswith`, `split(sep, maxsplit)`) are
  defined below character by character (ASCII model of `lower`/whitespace,
  which covers every character the dispatch compares against).
* `mcp_chatbot.py` — the two-round tool-calling turn (lines 121-205).
  HTTP traffic, `json.loads` and the adapter bodies are external effects;
  they enter the model as an environment record giving each call's outcome
  (`Except` for raise/raise_for_status), while the conversation store
  (`st.session_state["messages"]`) and the control flow of the turn are
  embedded exactly.
-/

/-- Whitespace characters stripped by Python `str.strip()` (ASCII subset:
space, tab, newline, carriage return, vertical tab, form feed, given by
code point). -/
def isPySpace (c : Char) : Bool :=
  c.toNat = 32 || c.toNat = 9 || c.toNat = 10 || c.toNat = 13 ||
    c.toNat = 11 || c.toNat = 12

/-- ASCII model of Python `str.lower()` on one character. -/
def pyLowerChar (c : Char) : Char :=
  if 65 ≤ c.toNat && c.toNat ≤ 90 then Char.ofNat (c.toNat + 32) else c

/-- Python `str.lower()` (ASCII model), characterwise. -/
def pyLower (s : List Char) : List Char := s.map pyLowerChar

/-- Python `str.strip()`: drop leading and trailing whitespace. -/
def pyStrip (s : List Char) : List Char :=
  ((s.dropWhile isPySpace).reverse.dropWhile isPySpace).reverse

/-- Python `str.startswith(p)`: `pyStartswith p s` is true when `p` is a
prefix of `s`. -/
def pyStartswith : List Char → List Char → Bool
  | [], _ => true
  | _ :: _, [] => false
  | p :: ps, c :: cs => p == c && pyStartswith ps cs

/-- Split a string at its first space character, if any (helper for
Python `str.split(" ", maxsplit)`). -/
def splitFirstSpace : List Char → Option (List Char × List Char)
  | [] => none
  | c :: cs =>
    if c = ' ' then some ([], cs)
    else
      match splitFirstSpace cs with
      | none => none
      | some (b, a) => some (c :: b, a)

/-- Python `s.split(" ", k)`: split on single spaces at most `k` times,
keeping empty segments, the remainder undivided in the last segment. -/
def pySplitSp : Nat → List Char → List (List Char)
  | 0, s => [s]
  | k + 1, s =>
    match splitFirstSpace s with
    | none => [s]
    | some (b, a) => b :: pySplitSp k a

/-- Characters of a Lean string literal, used to write Python strings. -/
def chars (s : String) : List Char := s.data

/-- Model of `command.split(p, 1)[1]` in the guarded branches: when `p` is a
prefix of `s` its first occurrence is at position 0, so the split remainder
is `s` with the first `p.length` characters removed. -/
def pyDropPre (p s : List Char) : List Char := s.drop p.length

/-- Result of the slash-command dispatch of `streamlit_mcp_chatbot.py`
(lines 336-393): which branch fired, with the positional arguments the
branch extracted. -/
inductive Cmd where
  | help
  | listAll
  | listDir (directory : List Char)
  | getContent (filepath : List Char)
  | appendCmd (filepath content : List Char)
  | usageAppend
  | patchCmd (filepath patch_type patch_target new_content : List Char)
  | usagePatch
  | searchCmd (query : List Char)
  | deleteCmd (filepath : List Char)
  | dockerImages
  | dockerContainers
  | dockerCreate (image_name : List Char)
  | unrecognized
  deriving DecidableEq, Repr

/-- The `/obsidian_append` branch (lines 361-368): split the remainder once
on a space; a missing `parts[1]` is the `IndexError` path producing the
usage result. -/
def appendBranch (rest : List Char) : Cmd :=
  let parts := pySplitSp 1 (pyStrip rest)
  match parts.get? 0, parts.get? 1 with
  | some fp, some content => .appendCmd fp content
  | _, _ => .usageAppend

/-- The `/obsidian_patch` branch (lines 369-378): split the remainder at
most three times; any missing `parts[i]` is the `IndexError` path producing
the usage result. -/
def patchBranch (rest : List Char) : Cmd :=
  let parts := pySplitSp 3 (pyStrip rest)
  match parts.get? 0, parts.get? 1, parts.get? 2, parts.get? 3 with
  | some fp, some ty, some tg, some nc => .patchCmd fp ty tg nc
  | _, _, _, _ => .usagePatch

/-- The chain of `command.startswith(...)` tests of
`streamlit_mcp_chatbot.py` lines 338-393, in source order, applied to the
already-normalized `command`. -/
def dispatchOn (command : List Char) : Cmd :=
  if pyStartswith (chars "/help") command then .help
  else if pyStartswith (chars "/obsidian_list_all") command then .listAll
  else if pyStartswith (chars "/obsidian_list_dir ") command then
    .listDir (pyStrip (pyDropPre (chars "/obsidian_list_dir ") command))
  else if pyStartswith (chars "/obsidian_get_content ") command then
    .getContent (pyStrip (pyDropPre (chars "/obsidian_get_content ") command))
  else if pyStartswith (chars "/obsidian_append ") command then
    appendBranch (pyDropPre (chars "/obsidian_append ") command)
  else if pyStartswith (chars "/obsidian_patch ") command then
    patchBranch (pyDropPre (chars "/obsidian_patch ") command)
  else if pyStartswith (chars "/obsidian_search ") command then
    .searchCmd (pyStrip (pyDropPre (chars "/obsidian_search ") command))
  else if pyStartswith (chars "/obsidian_delete ") command then
    .deleteCmd (pyStrip (pyDropPre (chars "/obsidian_delete ") command))
  else if pyStartswith (chars "/docker_list_images") command then .dockerImages
  else if pyStartswith (chars "/docker_list_containers") command then .dockerContainers
  else if pyStartswith (chars "/docker_create ") command then
    .dockerCreate (pyStrip (pyDropPre (chars "/docker_create ") command))
  else .unrecognized

/-- The command dispatch of `streamlit_mcp_chatbot.py` lines 336-393:
`command = prompt.strip().lower()` followed by the chain of
`command.startswith(...)` tests. -/
def dispatch (prompt : List Char) : Cmd :=
  dispatchOn (pyLower (pyStrip prompt))

/-- The positional arguments a `Cmd` carries to a Service Adapter. -/
def argsOf : Cmd → List (List Char)
  | .help => []
  | .listAll => []
  | .listDir d => [d]
  | .getContent f => [f]
  | .appendCmd f c => [f, c]
  | .usageAppend => []
  | .patchCmd f ty tg nc => [f, ty, tg, nc]
  | .usagePatch => []
  | .searchCmd q => [q]
  | .deleteCmd f => [f]
  | .dockerImages => []
  | .dockerContainers => []
  | .dockerCreate i => [i]
  | .unrecognized => []

/-- Message roles used across both front-ends. -/
inductive Role where
  | system
  | user
  | assistant
  | tool
  deriving DecidableEq, Repr

/-- One entry of the conversation store (`st.session_state` messages):
role, content, and — for `mcp_chatbot.py` tool results — the tool name. -/
structure Msg where
  role : Role
  content : String
  name : Option String := none
  deriving DecidableEq, Repr

/-- The user message appended at the start of a turn. -/
def userMsg (content : String) : Msg := ⟨.user, content, none⟩

/-- An assistant message. -/
def asstMsg (content : String) : Msg := ⟨.assistant, content, none⟩

/-- The tool-result message of `mcp_chatbot.py` line 173-175. -/
def toolMsg (fn_name result_str : String) : Msg := ⟨.tool, result_str, some fn_name⟩

/-- The system message `mcp_chatbot.py` seeds the store with (lines 105-115). -/
def sysMsg : Msg :=
  ⟨.system, "You are an assistant for Obsidian that can call APIs via tools. If the user asks about files, summaries, or notes, you MUST call the appropriate tool. Never answer from your own knowledge when a tool exists.", none⟩

/-- Decoded keyword arguments handed to a Service Adapter (model of the
dict produced by `json.loads` / passed via `**fn_args`). -/
def ArgMap : Type := List (String × String)

instance : DecidableEq ArgMap := by
  unfold ArgMap
  infer_instance

/-- The argument payload attached to a tool call: either still a serialized
string or an already-structured mapping (`isinstance(args, str)` test at
`mcp_chatbot.py` line 158). -/
inductive ArgPayload where
  | pyStr (s : String)
  | pyObj (d : ArgMap)
  deriving DecidableEq

/-- The `function` field of a tool call: name plus optional argument
payload (`tool_call["function"].get("arguments", "{}")`, line 156). -/
structure FnCall where
  name : String
  arguments : Option ArgPayload := none
  deriving DecidableEq

/-- One entry of the model response's tool-call list. -/
structure ToolCall where
  function : FnCall
  deriving DecidableEq

/-- The `message` object of the first inference response: content, the
optional `tool_calls` list (`none` = key absent, `some []` = key present
but empty) and the optional legacy `tool` key. -/
structure RespMsg where
  content : String
  tool_calls : Option (List ToolCall) := none
  tool : Option ToolCall := none
  deriving DecidableEq

/-- The parsed first response body (`data`), as used by the turn. -/
structure ChatResp where
  message : RespMsg
  deriving DecidableEq

/-- The tool-call parse of `mcp_chatbot.py` lines 142-151: if the
`tool_calls` key is present take the first element of a non-empty list
(an empty list leaves `tool_call = None`); only when the key is absent is
the legacy `tool` key consulted. -/
def parsedToolCall (m : RespMsg) : Option ToolCall :=
  match m.tool_calls with
  | some tcs => tcs.head?
  | none => m.tool

/-- Keys of `FUNCTION_MAP` (`mcp_chatbot.py` lines 93-97). -/
def FUNCTION_MAP_keys : List String :=
  ["list_files", "summarize_file", "create_summary_note"]

/-- Argument decoding of lines 156-161: a string payload goes through
`json.loads` (modelled by the environment's `jsonLoads`, `none` meaning the
decode raises), a structured payload is used as-is. -/
def decodeArgs (jsonLoads : String → Option ArgMap) : ArgPayload → Option ArgMap
  | .pyStr s => jsonLoads s
  | .pyObj d => some d

/-- Outcomes of the external effects one turn of `mcp_chatbot.py` can
perform: the first inference request (`.error` = transport failure or
non-success status raised by `raise_for_status`), `json.loads`, the
adapter invocation `FUNCTION_MAP[fn_name](**fn_args)` serialized by
`json.dumps` (`.error` = the call raised), and the follow-up inference
request (`.error` = transport failure / non-success status / missing
response fields). -/
structure TurnEnv where
  firstResp : Except String ChatResp
  jsonLoads : String → Option ArgMap
  adapter : String → ArgMap → Except String String
  followupResp : Except String String

/-- Observable outcome of one turn: the conversation store after the turn,
the `st.error` strings shown, the exception (if any) escaping the script
uncaught, and how many inference requests were issued. -/
structure TurnResult where
  messages : List Msg
  errors : List String
  raised : Option String
  requests : Nat
  deriving DecidableEq, Repr

/-- One turn of `mcp_chatbot.py` (lines 121-205), starting from store
`msgs0` with user input `prompt`.  Mirrors the source exactly: append the
user message; issue the first request (an uncaught exception leaves the
store at `msgs0 ++ [user]`); parse the tool call; on a tool call decode
the arguments **outside** any `try` (a decode failure escapes uncaught),
then inside the `try` invoke the adapter, append the tool message, issue
the follow-up request and append the final assistant message — any
exception in the `try` is caught and shown via `st.error`; an unknown tool
name is reported via `st.error`; with no tool call the first response's
content is appended as the assistant message and no second request is
made.  The transient `st.chat_message(...)` rendering (line 163) is
display-only and never stored. -/
def processTurn (env : TurnEnv) (msgs0 : List Msg) (prompt : String) : TurnResult :=
  let m1 := msgs0 ++ [userMsg prompt]
  match env.firstResp with
  | .error e => ⟨m1, [], some e, 1⟩
  | .ok data =>
    match parsedToolCall data.message with
    | none => ⟨m1 ++ [asstMsg data.message.content], [], none, 1⟩
    | some tc =>
      let fn_name := tc.function.name
      match decodeArgs env.jsonLoads (tc.function.arguments.getD (.pyStr "\x7b\x7d")) with
      | none => ⟨m1, [], some "json.decoder.JSONDecodeError", 1⟩
      | some fn_args =>
        if FUNCTION_MAP_keys.contains fn_name then
          match env.adapter fn_name fn_args with
          | .error e => ⟨m1, ["Tool call `" ++ fn_name ++ "` failed: " ++ e], none, 1⟩
          | .ok result_str =>
            let m2 := m1 ++ [toolMsg fn_name result_str]
            match env.followupResp with
            | .error e => ⟨m2, ["Tool call `" ++ fn_name ++ "` failed: " ++ e], none, 2⟩
            | .ok final_msg => ⟨m2 ++ [asstMsg final_msg], [], none, 2⟩
        else ⟨m1, ["Unknown tool requested: " ++ fn_name], none, 1⟩

/-- Outcome of `client.images.get(image_name)` inside
`create_docker_container`: image present, `docker.errors.ImageNotFound`
(handled by the inner `except`), or any other exception (handled by the
outer generic `except`). -/
inductive GetImageOutcome where
  | found
  | notFound
  | errored (e : String)
  deriving DecidableEq, Repr

/-- Outcome of `client.images.pull(image_name)`: success,
`docker.errors.ImageNotFound`, or another exception. -/
inductive PullOutcome where
  | ok
  | imgNotFound
  | errored (e : String)
  deriving DecidableEq, Repr

/-- Outcome of `client.containers.run(image_name, detach=True)`: the new
container's `name` and `short_id`, `docker.errors.ImageNotFound`, or
another exception. -/
inductive RunOutcome where
  | ok (name short_id : String)
  | imgNotFound
  | errored (e : String)
  deriving DecidableEq, Repr

/-- External outcomes available to `create_docker_container`:
whether `get_docker_client()` succeeds, and the three Docker API calls. -/
structure DockerEnv where
  clientOk : Bool
  getImage : GetImageOutcome
  pull : PullOutcome
  run : RunOutcome
  deriving DecidableEq, Repr

/-- Shared tail of `create_docker_container`: the result string of
`client.containers.run` and the two `except` clauses of lines 311-314. -/
def runResultStr (r : RunOutcome) (image_name : String) : String :=
  match r with
  | .ok n i =>
    "Container `" ++ n ++ "` successfully created and started from `" ++
      image_name ++ "`. ID: `" ++ i ++ "`"
  | .imgNotFound => "Error: Image `" ++ image_name ++ "` not found on Docker Hub."
  | .errored e => "Error creating container: " ++ e

/-- `create_docker_container` of `streamlit_mcp_chatbot.py` lines 284-314.
Unlike every other adapter it reads **and writes** the conversation store:
before touching the Docker API it appends a progress message to
`st.session_state.messages` (line 299) and, when the image is absent
locally, a second one (line 306).  Returns the result string together with
the store as the call leaves it.  (`st.session_state.rerun = True`,
line 300, is a further session-state write not tracked here.) -/
def create_docker_container (env : DockerEnv) (image_name : String)
    (msgs : List Msg) : String × List Msg :=
  if env.clientOk = false then ("Failed to connect to Docker.", msgs)
  else
    let msgs1 := msgs ++
      [asstMsg ("Creating container from image `" ++ image_name ++ "`...")]
    match env.getImage with
    | .errored e => ("Error creating container: " ++ e, msgs1)
    | .found => (runResultStr env.run image_name, msgs1)
    | .notFound =>
      let msgs2 := msgs1 ++
        [asstMsg ("Image `" ++ image_name ++ "` not found locally. Pulling from Docker Hub...")]
      match env.pull with
      | .imgNotFound =>
        ("Error: Image `" ++ image_name ++ "` not found on Docker Hub.", msgs2)
      | .errored e => ("Error creating container: " ++ e, msgs2)
      | .ok => (runResultStr env.run image_name, msgs2)

/-- `list_files_in_vault` (lines 40-63): `o` is the HTTP outcome —
`.error` for a `requests.exceptions.RequestException`, `.ok files` for the
decoded `response.json().get("files", [])`. -/
def list_files_in_vault (o : Except String (List String)) : String :=
  match o with
  | .error e => "Error listing files from Obsidian: " ++ e
  | .ok files =>
    if files.isEmpty then "No files found in the Obsidian vault."
    else files.foldl (fun acc f => acc ++ "- `" ++ f ++ "`\n") "### Obsidian Files\n"

/-- `list_files_in_dir` (lines 65-96). -/
def list_files_in_dir (directory : String) (o : Except String (List String)) : String :=
  match o with
  | .error e => "Error listing files in directory from Obsidian: " ++ e
  | .ok files =>
    if files.isEmpty then "No files found in directory `" ++ directory ++ "`."
    else files.foldl (fun acc f => acc ++ "- `" ++ f ++ "`\n")
      ("### Files in `" ++ directory ++ "`\n")

/-- `get_file_contents` (lines 98-121): `.ok none` models a response body
without a `content` key (the `.get` default). -/
def get_file_contents (o : Except String (Option String)) : String :=
  match o with
  | .error e => "Error reading file from Obsidian: " ++ e
  | .ok (some content) => content
  | .ok none => "File content not found."

/-- `append_content` (lines 123-147). -/
def append_content (o : Except String Unit) : String :=
  match o with
  | .error e => "Error appending content to Obsidian: " ++ e
  | .ok _ => "Content successfully appended."

/-- `patch_content` (lines 149-184). -/
def patch_content (o : Except String Unit) : String :=
  match o with
  | .error e => "Error patching content to Obsidian: " ++ e
  | .ok _ => "Content successfully patched."

/-- `search_obsidian_vault` (lines 186-217). -/
def search_obsidian_vault (query : String) (o : Except String (List String)) : String :=
  match o with
  | .error e => "Error searching Obsidian vault: " ++ e
  | .ok results =>
    if results.isEmpty then "No results found for query `" ++ query ++ "`."
    else results.foldl (fun acc r => acc ++ "- `" ++ r ++ "`\n")
      ("### Search Results for `" ++ query ++ "`\n")

/-- `delete_obsidian_file` (lines 219-242). -/
def delete_obsidian_file (filepath : String) (o : Except String Unit) : String :=
  match o with
  | .error e => "Error deleting file from Obsidian: " ++ e
  | .ok _ => "File `" ++ filepath ++ "` successfully deleted."

/-- `list_docker_images` (lines 246-262): each image is (short_id, tags). -/
def list_docker_images (clientOk : Bool)
    (o : Except String (List (String × List String))) : String :=
  if clientOk = false then "Failed to connect to Docker."
  else
    match o with
    | .error e => "Error listing images: " ++ e
    | .ok images =>
      if images.isEmpty then "No Docker images found."
      else images.foldl
        (fun acc img =>
          acc ++ "- **ID:** `" ++ img.1 ++ "`\n  - **Tags:** `" ++
            String.intercalate ", " img.2 ++ "`\n")
        "### Docker Images\n"

/-- `list_docker_containers` (lines 264-282): each container is
(name, short_id, first image tag or "N/A", status). -/
def list_docker_containers (clientOk : Bool)
    (o : Except String (List (String × String × String × String))) : String :=
  if clientOk = false then "Failed to connect to Docker."
  else
    match o with
    | .error e => "Error listing containers: " ++ e
    | .ok cs =>
      if cs.isEmpty then "No running containers found."
      else cs.foldl
        (fun acc c =>
          acc ++ "- **Name:** `" ++ c.1 ++ "`\n  - **ID:** `" ++ c.2.1 ++
            "`\n  - **Image:** `" ++ c.2.2.1 ++ "`\n  - **Status:** `" ++
            c.2.2.2 ++ "`\n")
        "### Running Docker Containers\n"

/-- The per-turn external outcomes of `streamlit_mcp_chatbot.py`: one HTTP
outcome per vault adapter, the Docker client/API outcomes, and the Docker
create environment. -/
structure SEnv where
  vaultList : Except String (List String)
  dirList : Except String (List String)
  fileContent : Except String (Option String)
  appendResp : Except String Unit
  patchResp : Except String Unit
  searchResp : Except String (List String)
  deleteResp : Except String Unit
  clientOk : Bool
  imagesList : Except String (List (String × List String))
  containersList : Except String (List (String × String × String × String))
  docker : DockerEnv

/-- String view of a model-level Python string. -/
def toS (l : List Char) : String := ⟨l⟩

/-- Execute the dispatched command (lines 338-393): every branch except
`/docker_create` computes a response string without touching the
conversation store; the `/docker_create` branch threads the store through
`create_docker_container`. -/
def runCmd (env : SEnv) (c : Cmd) (msgs : List Msg) : String × List Msg :=
  match c with
  | .help => ("### Available Commands: ...", msgs)
  | .listAll => (list_files_in_vault env.vaultList, msgs)
  | .listDir d => (list_files_in_dir (toS d) env.dirList, msgs)
  | .getContent _ => (get_file_contents env.fileContent, msgs)
  | .appendCmd _ _ => (append_content env.appendResp, msgs)
  | .usageAppend =>
    ("Invalid command format. Usage: `/obsidian_append [filepath] [content]`", msgs)
  | .patchCmd _ _ _ _ => (patch_content env.patchResp, msgs)
  | .usagePatch =>
    ("Invalid command format. Usage: `/obsidian_patch [filepath] [patch_type] [patch_target] [new_content]`", msgs)
  | .searchCmd q => (search_obsidian_vault (toS q) env.searchResp, msgs)
  | .deleteCmd f => (delete_obsidian_file (toS f) env.deleteResp, msgs)
  | .dockerImages => (list_docker_images env.clientOk env.imagesList, msgs)
  | .dockerContainers => (list_docker_containers env.clientOk env.containersList, msgs)
  | .dockerCreate i => create_docker_container env.docker (toS i) msgs
  | .unrecognized =>
    ("I don't understand that command. Please type `/help` for a list of commands.", msgs)

/-- One turn of `streamlit_mcp_chatbot.py` (lines 327-400): append the
user message, dispatch, run the command (only `/docker_create` can touch
the store), then append the assistant response. -/
def streamlitTurn (env : SEnv) (msgs : List Msg) (prompt : String) : List Msg :=
  let msgs1 := msgs ++ [userMsg prompt]
  let res := runCmd env (dispatch (chars prompt)) msgs1
  res.2 ++ [asstMsg res.1]

/-- Does `c` lie in the ASCII uppercase range `A`-`Z`? -/
def isUpperAscii (c : Char) : Bool := 65 ≤ c.toNat && c.toNat ≤ 90

/-- A string is all-lowercase in the sense of the spec: it contains no
ASCII uppercase character. -/
def noUpper (s : List Char) : Bool := s.all (fun c => !isUpperAscii c)

/-- Number of messages with role `r` in a store. -/
def countRole (r : Role) (l : List Msg) : Nat :=
  (l.filter (fun m => m.role == r)).length

/-- Scan of the tool-placement invariant: walking the store left to right,
`prevIsUser` records whether the previous message has role `user`; a
`tool` message is admissible only right after a `user` message. -/
def toolOkFrom (prevIsUser : Bool) : List Msg → Bool
  | [] => true
  | m :: rest =>
    (!(m.role == .tool) || prevIsUser) && toolOkFrom (m.role == .user) rest

/-- Every `tool` message of the store is immediately preceded by a `user`
message (in particular the store does not start with a `tool` message). -/
def toolOk (l : List Msg) : Bool := toolOkFrom false l

/-- Whether the message preceding a hypothetical next element would be a
`user` message: the role of the last element, defaulting to `b` on the
empty list. -/
def endU (b : Bool) : List Msg → Bool
  | [] => b
  | m :: rest => endU (m.role == .user) rest

/-- A first-response body with the given content, `tool_calls` value and
legacy `tool` value. -/
def mkResp (content : String) (tcs : Option (List ToolCall))
    (tool : Option ToolCall) : ChatResp := ⟨⟨content, tcs, tool⟩⟩

/-- A `json.loads` oracle that fails on every input. -/
def jsonLoadsNone : String → Option ArgMap := fun _ => none

/-- A `json.loads` oracle accepting only the empty-object literal. -/
def jsonLoadsEmpty : String → Option ArgMap :=
  fun s => if s = "\x7b\x7d" then some [] else none

/-- An adapter oracle whose every invocation succeeds with result `r`. -/
def adapterConst (r : String) : String → ArgMap → Except String String :=
  fun _ _ => .ok r

/-- Turn environment: first response requests `list_files` via a one-entry
`tool_calls` list, the adapter and the follow-up request succeed. -/
def envToolOk : TurnEnv :=
  ⟨.ok (mkResp "" (some [⟨⟨"list_files", some (.pyObj [])⟩⟩]) none),
   jsonLoadsEmpty, adapterConst "[]", .ok "done"⟩

/-- Turn environment: like `envToolOk` but the follow-up request fails
with a transport error. -/
def envFollowFail : TurnEnv :=
  ⟨.ok (mkResp "" (some [⟨⟨"list_files", some (.pyObj [])⟩⟩]) none),
   jsonLoadsEmpty, adapterConst "[]", .error "HTTPError: 500 Server Error"⟩

/-- Turn environment: the first request itself fails with a transport
error. -/
def envFirstFail : TurnEnv :=
  ⟨.error "ConnectionError", jsonLoadsNone, adapterConst "", .ok ""⟩

/-- Turn environment: the first response requests a tool name absent from
`FUNCTION_MAP`. -/
def envUnknownTool : TurnEnv :=
  ⟨.ok (mkResp "" (some [⟨⟨"nope", some (.pyObj [])⟩⟩]) none),
   jsonLoadsEmpty, adapterConst "[]", .ok "done"⟩

/-- Turn environment: the tool call's arguments arrive as a string that
fails to decode. -/
def envBadArgs : TurnEnv :=
  ⟨.ok (mkResp "" (some [⟨⟨"list_files", some (.pyStr "not json")⟩⟩]) none),
   jsonLoadsNone, adapterConst "[]", .ok "done"⟩

/-- Turn environment: the first response has no `tool_calls` key but does
carry the legacy single `tool` key. -/
def envLegacyTool : TurnEnv :=
  ⟨.ok (mkResp "hello" none (some ⟨⟨"list_files", some (.pyObj [])⟩⟩)),
   jsonLoadsEmpty, adapterConst "[]", .ok "done"⟩

/-- A `json.loads` oracle decoding the single payload "x" to a filename
mapping, used to witness string/structured argument equivalence. -/
def jsonLoadsX : String → Option ArgMap :=
  fun s => if s = "x" then some [("filename", "a.md")] else none

/-- A streamlit-side environment in which every external call succeeds. -/
def sEnvOk : SEnv :=
  ⟨.ok [], .ok [], .ok none, .ok (), .ok (), .ok [], .ok (), true, .ok [], .ok [],
   ⟨true, .found, .ok, .ok "kind_tesla" "abc123"⟩⟩

theorem toNat_ofNat_valid (n : Nat) (h : n.isValidChar) : (Char.ofNat n).toNat = n := by
  rw [Char.ofNat, dif_pos h]
  rfl

theorem pyLowerChar_not_upper (c : Char) : isUpperAscii (pyLowerChar c) = false := by
  unfold pyLowerChar isUpperAscii
  by_cases h : 65 ≤ c.toNat && c.toNat ≤ 90
  · simp only [h, if_true]
    simp only [Bool.and_eq_true, decide_eq_true_eq] at h
    rw [toNat_ofNat_valid (c.toNat + 32) (Or.inl (by omega))]
    simp
    omega
  · simp [h]

theorem noUpper_pyLower (s : List Char) : noUpper (pyLower s) = true := by
  simp only [noUpper, pyLower, List.all_map, List.all_eq_true]
  intro c _
  simp [pyLowerChar_not_upper]

theorem mem_of_mem_pyStrip {c : Char} {s : List Char} (h : c ∈ pyStrip s) : c ∈ s := by
  unfold pyStrip at h
  rw [List.mem_reverse] at h
  have h1 := (List.dropWhile_sublist (l := (s.dropWhile isPySpace).reverse) (p := isPySpace)).mem h
  rw [List.mem_reverse] at h1
  exact (List.dropWhile_sublist (l := s) (p := isPySpace)).mem h1

theorem mem_of_mem_drop {c : Char} {s : List Char} {n : Nat} (h : c ∈ s.drop n) : c ∈ s :=
  (List.drop_sublist n s).mem h

theorem mem_of_splitFirstSpace {s b a : List Char}
    (h : splitFirstSpace s = some (b, a)) {c : Char} :
    (c ∈ b → c ∈ s) ∧ (c ∈ a → c ∈ s) := by
  induction s generalizing b a with
  | nil => simp [splitFirstSpace] at h
  | cons x xs ih =>
    unfold splitFirstSpace at h
    by_cases hx : x = ' '
    · simp [hx] at h
      obtain ⟨hb, ha⟩ := h
      subst hb; subst ha
      constructor
      · intro hc; simp at hc
      · intro hc; exact List.mem_cons_of_mem _ hc
    · simp [hx] at h
      cases hsp : splitFirstSpace xs with
      | none => rw [hsp] at h; simp at h
      | some p =>
        rw [hsp] at h
        obtain ⟨b', a'⟩ := p
        simp at h
        obtain ⟨hb, ha⟩ := h
        subst hb; subst ha
        obtain ⟨ihb, iha⟩ := ih hsp
        constructor
        · intro hc
          rcases List.mem_cons.mp hc with h1 | h1
          · exact h1 ▸ List.mem_cons_self _ _
          · exact List.mem_cons_of_mem _ (ihb h1)
        · intro hc; exact List.mem_cons_of_mem _ (iha hc)

theorem mem_of_mem_pySplitSp {k : Nat} {s p : List Char} (hp : p ∈ pySplitSp k s)
    {c : Char} (hc : c ∈ p) : c ∈ s := by
  induction k generalizing s p with
  | zero =>
    simp [pySplitSp] at hp
    exact hp ▸ hc
  | succ k ih =>
    unfold pySplitSp at hp
    cases hsp : splitFirstSpace s with
    | none => rw [hsp] at hp; simp at hp; exact hp ▸ hc
    | some q =>
      rw [hsp] at hp
      obtain ⟨b, a⟩ := q
      rcases List.mem_cons.mp hp with h1 | h1
      · exact (mem_of_splitFirstSpace hsp).1 (h1 ▸ hc)
      · exact (mem_of_splitFirstSpace hsp).2 (ih h1 hc)

theorem mem_args_appendBranch {r a : List Char} (ha : a ∈ argsOf (appendBranch r))
    {c : Char} (hc : c ∈ a) : c ∈ r := by
  unfold appendBranch at ha
  dsimp only at ha
  cases h0 : (pySplitSp 1 (pyStrip r)).get? 0 with
  | none => rw [h0] at ha; simp [argsOf] at ha
  | some fp =>
    cases h1 : (pySplitSp 1 (pyStrip r)).get? 1 with
    | none => rw [h0, h1] at ha; simp [argsOf] at ha
    | some content =>
      rw [h0, h1] at ha
      simp [argsOf] at ha
      rcases ha with ha | ha
      · exact mem_of_mem_pyStrip
          (mem_of_mem_pySplitSp (List.get?_mem h0) (ha ▸ hc))
      · exact mem_of_mem_pyStrip
          (mem_of_mem_pySplitSp (List.get?_mem h1) (ha ▸ hc))

theorem mem_args_patchBranch {r a : List Char} (ha : a ∈ argsOf (patchBranch r))
    {c : Char} (hc : c ∈ a) : c ∈ r := by
  unfold patchBranch at ha
  dsimp only at ha
  cases h0 : (pySplitSp 3 (pyStrip r)).get? 0 with
  | none => rw [h0] at ha; simp [argsOf] at ha
  | some fp =>
    cases h1 : (pySplitSp 3 (pyStrip r)).get? 1 with
    | none => rw [h0, h1] at ha; simp [argsOf] at ha
    | some ty =>
      cases h2 : (pySplitSp 3 (pyStrip r)).get? 2 with
      | none => rw [h0, h1, h2] at ha; simp [argsOf] at ha
      | some tg =>
        cases h3 : (pySplitSp 3 (pyStrip r)).get? 3 with
        | none => rw [h0, h1, h2, h3] at ha; simp [argsOf] at ha
        | some nc =>
          rw [h0, h1, h2, h3] at ha
          simp [argsOf] at ha
          rcases ha with ha | ha | ha | ha
          · exact mem_of_mem_pyStrip (mem_of_mem_pySplitSp (List.get?_mem h0) (ha ▸ hc))
          · exact mem_of_mem_pyStrip (mem_of_mem_pySplitSp (List.get?_mem h1) (ha ▸ hc))
          · exact mem_of_mem_pyStrip (mem_of_mem_pySplitSp (List.get?_mem h2) (ha ▸ hc))
          · exact mem_of_mem_pyStrip (mem_of_mem_pySplitSp (List.get?_mem h3) (ha ▸ hc))

set_option maxHeartbeats 2000000 in
theorem args_subset_command (s : List Char) :
    ∀ a ∈ argsOf (dispatchOn s), ∀ c ∈ a, c ∈ s := by
  intro a ha c hc
  unfold dispatchOn at ha
  split at ha
  · simp only [argsOf] at ha; exact absurd ha (List.not_mem_nil a)
  · split at ha
    · simp only [argsOf] at ha; exact absurd ha (List.not_mem_nil a)
    · split at ha
      · simp only [argsOf, List.mem_singleton] at ha
        exact mem_of_mem_drop (mem_of_mem_pyStrip (ha ▸ hc))
      · split at ha
        · simp only [argsOf, List.mem_singleton] at ha
          exact mem_of_mem_drop (mem_of_mem_pyStrip (ha ▸ hc))
        · split at ha
          · exact mem_of_mem_drop (mem_args_appendBranch ha hc)
          · split at ha
            · exact mem_of_mem_drop (mem_args_patchBranch ha hc)
            · split at ha
              · simp only [argsOf, List.mem_singleton] at ha
                exact mem_of_mem_drop (mem_of_mem_pyStrip (ha ▸ hc))
              · split at ha
                · simp only [argsOf, List.mem_singleton] at ha
                  exact mem_of_mem_drop (mem_of_mem_pyStrip (ha ▸ hc))
                · split at ha
                  · simp only [argsOf] at ha; exact absurd ha (List.not_mem_nil a)
                  · split at ha
                    · simp only [argsOf] at ha; exact absurd ha (List.not_mem_nil a)
                    · split at ha
                      · simp only [argsOf, List.mem_singleton] at ha
                        exact mem_of_mem_drop (mem_of_mem_pyStrip (ha ▸ hc))
                      · simp only [argsOf] at ha; exact absurd ha (List.not_mem_nil a)

theorem dropWhile_eq_self_of {s : List Char} (h : ∀ c ∈ s, isPySpace c = false) :
    s.dropWhile isPySpace = s := by
  cases s with
  | nil => rfl
  | cons x xs =>
    simp [List.dropWhile, h x (List.mem_cons_self x xs)]

theorem pyStrip_eq_self_of {s : List Char} (h : ∀ c ∈ s, isPySpace c = false) :
    pyStrip s = s := by
  unfold pyStrip
  rw [dropWhile_eq_self_of h]
  rw [dropWhile_eq_self_of (fun c hc => h c (List.mem_reverse.mp hc))]
  exact List.reverse_reverse s

theorem pyLower_append (a b : List Char) :
    pyLower (a ++ b) = pyLower a ++ pyLower b := List.map_append pyLowerChar a b

/-- C9: the raw input line is stripped and lowercased before dispatch, so
every positional argument extracted by the command parser and handed to a
Service Adapter contains no ASCII uppercase character. -/
theorem C9_args_all_lowercase (prompt : List Char) :
    ∀ a ∈ argsOf (dispatch prompt), noUpper a = true := by
  intro a ha
  simp only [noUpper, List.all_eq_true]
  intro c hc
  have hmem := args_subset_command (pyLower (pyStrip prompt)) a ha c hc
  have h2 := noUpper_pyLower (pyStrip prompt)
  simp only [noUpper, List.all_eq_true] at h2
  exact h2 c hmem

/-- C9 witness: the uppercase input `/obsidian_get_content Notes/File.MD`
dispatches with the lowercased argument `notes/file.md`, which the theorem
certifies contains no uppercase character. -/
theorem C9_args_all_lowercase_witness :
    chars "notes/file.md" ∈ argsOf (dispatch (chars "/obsidian_get_content Notes/File.MD")) ∧
      noUpper (chars "notes/file.md") = true :=
  ⟨by decide,
   C9_args_all_lowercase (chars "/obsidian_get_content Notes/File.MD")
     (chars "notes/file.md") (by decide)⟩

/-- C10: command matching is raw prefix testing, so a zero-argument
command keyword followed immediately by extra non-space characters still
dispatches to that command instead of falling through to the
unrecognized-command result. -/
theorem C10_zero_arg_keyword_glued (extra : List Char)
    (h : ∀ c ∈ extra, isPySpace c = false) :
    dispatch (chars "/help" ++ extra) = .help ∧
    dispatch (chars "/obsidian_list_all" ++ extra) = .listAll ∧
    dispatch (chars "/docker_list_images" ++ extra) = .dockerImages ∧
    dispatch (chars "/docker_list_containers" ++ extra) = .dockerContainers := by
  have hk : ∀ k : List Char, (∀ c ∈ k, isPySpace c = false) →
      pyLower (pyStrip (k ++ extra)) = pyLower k ++ pyLower extra := by
    intro k hks
    rw [pyStrip_eq_self_of, pyLower_append]
    intro c hc
    rcases List.mem_append.mp hc with h1 | h1
    · exact hks c h1
    · exact h c h1
  refine ⟨?_, ?_, ?_, ?_⟩
  · show dispatchOn (pyLower (pyStrip (chars "/help" ++ extra))) = .help
    rw [hk (chars "/help") (by decide)]
    show dispatchOn (chars "/help" ++ pyLower extra) = .help
    unfold dispatchOn
    rw [show pyStartswith (chars "/help") (chars "/help" ++ pyLower extra) = true from rfl]
    simp
  · show dispatchOn (pyLower (pyStrip (chars "/obsidian_list_all" ++ extra))) = .listAll
    rw [hk (chars "/obsidian_list_all") (by decide)]
    show dispatchOn (chars "/obsidian_list_all" ++ pyLower extra) = .listAll
    unfold dispatchOn
    rw [show pyStartswith (chars "/help") (chars "/obsidian_list_all" ++ pyLower extra) = false from rfl]
    rw [show pyStartswith (chars "/obsidian_list_all") (chars "/obsidian_list_all" ++ pyLower extra) = true from rfl]
    simp
  · show dispatchOn (pyLower (pyStrip (chars "/docker_list_images" ++ extra))) = .dockerImages
    rw [hk (chars "/docker_list_images") (by decide)]
    show dispatchOn (chars "/docker_list_images" ++ pyLower extra) = .dockerImages
    unfold dispatchOn
    rw [show pyStartswith (chars "/help") (chars "/docker_list_images" ++ pyLower extra) = false from rfl]
    rw [show pyStartswith (chars "/obsidian_list_all") (chars "/docker_list_images" ++ pyLower extra) = false from rfl]
    rw [show pyStartswith (chars "/obsidian_list_dir ") (chars "/docker_list_images" ++ pyLower extra) = false from rfl]
    rw [show pyStartswith (chars "/obsidian_get_content ") (chars "/docker_list_images" ++ pyLower extra) = false from rfl]
    rw [show pyStartswith (chars "/obsidian_append ") (chars "/docker_list_images" ++ pyLower extra) = false from rfl]
    rw [show pyStartswith (chars "/obsidian_patch ") (chars "/docker_list_images" ++ pyLower extra) = false from rfl]
    rw [show pyStartswith (chars "/obsidian_search ") (chars "/docker_list_images" ++ pyLower extra) = false from rfl]
    rw [show pyStartswith (chars "/obsidian_delete ") (chars "/docker_list_images" ++ pyLower extra) = false from rfl]
    rw [show pyStartswith (chars "/docker_list_images") (chars "/docker_list_images" ++ pyLower extra) = true from rfl]
    simp
  · show dispatchOn (pyLower (pyStrip (chars "/docker_list_containers" ++ extra))) = .dockerContainers
    rw [hk (chars "/docker_list_containers") (by decide)]
    show dispatchOn (chars "/docker_list_containers" ++ pyLower extra) = .dockerContainers
    unfold dispatchOn
    rw [show pyStartswith (chars "/help") (chars "/docker_list_containers" ++ pyLower extra) = false from rfl]
    rw [show pyStartswith (chars "/obsidian_list_all") (chars "/docker_list_containers" ++ pyLower extra) = false from rfl]
    rw [show pyStartswith (chars "/obsidian_list_dir ") (chars "/docker_list_containers" ++ pyLower extra) = false from rfl]
    rw [show pyStartswith (chars "/obsidian_get_content ") (chars "/docker_list_containers" ++ pyLower extra) = false from rfl]
    rw [show pyStartswith (chars "/obsidian_append ") (chars "/docker_list_containers" ++ pyLower extra) = false from rfl]
    rw [show pyStartswith (chars "/obsidian_patch ") (chars "/docker_list_containers" ++ pyLower extra) = false from rfl]
    rw [show pyStartswith (chars "/obsidian_search ") (chars "/docker_list_containers" ++ pyLower extra) = false from rfl]
    rw [show pyStartswith (chars "/obsidian_delete ") (chars "/docker_list_containers" ++ pyLower extra) = false from rfl]
    rw [show pyStartswith (chars "/docker_list_images") (chars "/docker_list_containers" ++ pyLower extra) = false from rfl]
    rw [show pyStartswith (chars "/docker_list_containers") (chars "/docker_list_containers" ++ pyLower extra) = true from rfl]
    simp

/-- C10 witness: `/helpxyz` and `/docker_list_imagesfoo` dispatch to
`/help` and `/docker_list_images` respectively. -/
theorem C10_zero_arg_keyword_glued_witness :
    dispatch (chars "/help" ++ chars "xyz") = .help ∧
    dispatch (chars "/docker_list_images" ++ chars "foo") = .dockerImages :=
  ⟨(C10_zero_arg_keyword_glued (chars "xyz") (by decide)).1,
   (C10_zero_arg_keyword_glued (chars "foo") (by decide)).2.2.1⟩

theorem isPySpace_pyLowerChar (c : Char) : isPySpace (pyLowerChar c) = isPySpace c := by
  unfold pyLowerChar
  by_cases h : 65 ≤ c.toNat && c.toNat ≤ 90
  · simp only [h, if_true]
    simp only [Bool.and_eq_true, decide_eq_true_eq] at h
    have h32 : (Char.ofNat (c.toNat + 32)).toNat = c.toNat + 32 :=
      toNat_ofNat_valid _ (Or.inl (by omega))
    have hL : isPySpace (Char.ofNat (c.toNat + 32)) = false := by
      unfold isPySpace
      rw [h32]
      simp only [Bool.or_eq_false_iff, decide_eq_false_iff_not]
      omega
    have hR : isPySpace c = false := by
      unfold isPySpace
      simp only [Bool.or_eq_false_iff, decide_eq_false_iff_not]
      omega
    rw [hL, hR]
  · simp [h]

theorem ne_space_of_not_isPySpace {c : Char} (h : isPySpace c = false) : ¬(c = ' ') := by
  intro hc
  subst hc
  simp [isPySpace] at h

theorem splitFirstSpace_eq_none {s : List Char} (h : ∀ c ∈ s, isPySpace c = false) :
    splitFirstSpace s = none := by
  induction s with
  | nil => rfl
  | cons x xs ih =>
    unfold splitFirstSpace
    rw [if_neg (ne_space_of_not_isPySpace (h x (List.mem_cons_self x xs)))]
    rw [ih (fun c hc => h c (List.mem_cons_of_mem x hc))]

theorem splitFirstSpace_append_space {w : List Char} (h : ∀ c ∈ w, isPySpace c = false)
    (r : List Char) : splitFirstSpace (w ++ ' ' :: r) = some (w, r) := by
  induction w with
  | nil => rfl
  | cons x xs ih =>
    rw [List.cons_append]
    unfold splitFirstSpace
    rw [if_neg (ne_space_of_not_isPySpace (h x (List.mem_cons_self x xs)))]
    rw [ih (fun c hc => h c (List.mem_cons_of_mem x hc))]

theorem dropWhile_append_all_space {a : List Char} (h : ∀ c ∈ a, isPySpace c = true)
    (b : List Char) :
    (a ++ b).dropWhile isPySpace = b.dropWhile isPySpace := by
  induction a with
  | nil => rfl
  | cons x xs ih =>
    rw [List.cons_append]
    rw [List.dropWhile_cons_of_pos (by simp [h x (List.mem_cons_self x xs)])]
    exact ih (fun c hc => h c (List.mem_cons_of_mem x hc))

theorem pyStrip_eq_self_head_last {x : Char} {t : List Char} (hx : isPySpace x = false)
    (hrev : ∃ y u, (x :: t).reverse = y :: u ∧ isPySpace y = false) :
    pyStrip (x :: t) = x :: t := by
  obtain ⟨y, u, hy, hys⟩ := hrev
  unfold pyStrip
  rw [List.dropWhile_cons_of_neg (by simp [hx])]
  rw [hy]
  rw [List.dropWhile_cons_of_neg (by simp [hys])]
  rw [← hy, List.reverse_reverse]

theorem pyStrip_append_ws {x : Char} {t : List Char} (hx : isPySpace x = false)
    {ws : List Char} (hw : ∀ c ∈ ws, isPySpace c = true)
    (hk : (x :: t).reverse.dropWhile isPySpace = (x :: t).reverse) :
    pyStrip ((x :: t) ++ ws) = x :: t := by
  unfold pyStrip
  rw [List.cons_append, List.dropWhile_cons_of_neg (by simp [hx]), ← List.cons_append]
  rw [List.reverse_append]
  rw [dropWhile_append_all_space (fun c hc => hw c (List.mem_reverse.mp hc))]
  rw [hk]
  rw [List.reverse_reverse]

theorem pyStrip_eq_self_of_ends {s : List Char}
    (h1 : ∃ x t, s = x :: t ∧ isPySpace x = false)
    (h2 : ∃ y u, s.reverse = y :: u ∧ isPySpace y = false) :
    pyStrip s = s := by
  obtain ⟨x, t, rfl, hx⟩ := h1
  obtain ⟨y, u, hy, hys⟩ := h2
  unfold pyStrip
  rw [List.dropWhile_cons_of_neg (by simp [hx]), hy,
    List.dropWhile_cons_of_neg (by simp [hys]), ← hy, List.reverse_reverse]

theorem rev_head_nonspace {w : List Char} (h0 : w ≠ [])
    (hns : ∀ c ∈ w, isPySpace c = false) :
    ∃ y u, w.reverse = y :: u ∧ isPySpace y = false := by
  have hrn : w.reverse ≠ [] := by simpa using h0
  obtain ⟨y, u, hy⟩ := List.exists_cons_of_ne_nil hrn
  exact ⟨y, u, hy, hns y (List.mem_reverse.mp (hy ▸ List.mem_cons_self y u))⟩

theorem rev_head_of_append_right {a b : List Char}
    (hb : ∃ y u, b.reverse = y :: u ∧ isPySpace y = false) :
    ∃ y u, (a ++ b).reverse = y :: u ∧ isPySpace y = false := by
  obtain ⟨y, u, hy, hys⟩ := hb
  exact ⟨y, u ++ a.reverse, by rw [List.reverse_append, hy, List.cons_append], hys⟩

theorem pyLower_nonspace {w : List Char} (h : ∀ c ∈ w, isPySpace c = false) :
    ∀ c ∈ pyLower w, isPySpace c = false := by
  intro c hc
  obtain ⟨d, hd, rfl⟩ := List.mem_map.mp hc
  rw [isPySpace_pyLowerChar]
  exact h d hd

theorem appendBranch_single_token {w : List Char} (h : ∀ c ∈ w, isPySpace c = false) :
    appendBranch w = .usageAppend := by
  unfold appendBranch
  dsimp only
  rw [pyStrip_eq_self_of h]
  show (match (pySplitSp 1 w).get? 0, (pySplitSp 1 w).get? 1 with
    | some fp, some content => Cmd.appendCmd fp content
    | _, _ => Cmd.usageAppend) = Cmd.usageAppend
  rw [show pySplitSp 1 w = [w] by unfold pySplitSp; rw [splitFirstSpace_eq_none h]]
  rfl

theorem patchBranch_three_tokens {w1 w2 w3 : List Char}
    (h1 : ∀ c ∈ w1, isPySpace c = false) (h2 : ∀ c ∈ w2, isPySpace c = false)
    (h3 : ∀ c ∈ w3, isPySpace c = false)
    (hw1 : w1 ≠ []) (hw3 : w3 ≠ []) :
    patchBranch (w1 ++ ' ' :: (w2 ++ ' ' :: w3)) = .usagePatch := by
  unfold patchBranch
  dsimp only
  have hstrip : pyStrip (w1 ++ ' ' :: (w2 ++ ' ' :: w3)) = w1 ++ ' ' :: (w2 ++ ' ' :: w3) := by
    apply pyStrip_eq_self_of_ends
    · obtain ⟨x, t, hx⟩ := List.exists_cons_of_ne_nil hw1
      exact ⟨x, t ++ ' ' :: (w2 ++ ' ' :: w3), by rw [hx, List.cons_append],
        h1 x (hx ▸ List.mem_cons_self x t)⟩
    · have hsw : w1 ++ ' ' :: (w2 ++ ' ' :: w3) = (w1 ++ ' ' :: w2 ++ [' ']) ++ w3 := by
        simp
      rw [hsw]
      exact rev_head_of_append_right (rev_head_nonspace hw3 h3)
  rw [hstrip]
  have hsp : pySplitSp 3 (w1 ++ ' ' :: (w2 ++ ' ' :: w3)) = [w1, w2, w3] := by
    simp only [pySplitSp, splitFirstSpace_append_space h1, splitFirstSpace_append_space h2,
      splitFirstSpace_eq_none h3]
  rw [hsp]
  rfl

theorem dispatch_append_one_token {w : List Char} (h0 : w ≠ [])
    (hns : ∀ c ∈ w, isPySpace c = false) :
    dispatch (chars "/obsidian_append " ++ w) = .usageAppend := by
  show dispatchOn (pyLower (pyStrip (chars "/obsidian_append " ++ w))) = _
  have hstrip : pyStrip (chars "/obsidian_append " ++ w) =
      chars "/obsidian_append " ++ w := by
    apply pyStrip_eq_self_of_ends
    · exact ⟨'/', chars "obsidian_append " ++ w, rfl, by decide⟩
    · exact rev_head_of_append_right (rev_head_nonspace h0 hns)
  rw [hstrip, pyLower_append]
  rw [show pyLower (chars "/obsidian_append ") = chars "/obsidian_append " from by decide]
  unfold dispatchOn
  rw [show pyStartswith (chars "/help") (chars "/obsidian_append " ++ pyLower w) = false from rfl]
  rw [show pyStartswith (chars "/obsidian_list_all") (chars "/obsidian_append " ++ pyLower w) = false from rfl]
  rw [show pyStartswith (chars "/obsidian_list_dir ") (chars "/obsidian_append " ++ pyLower w) = false from rfl]
  rw [show pyStartswith (chars "/obsidian_get_content ") (chars "/obsidian_append " ++ pyLower w) = false from rfl]
  rw [show pyStartswith (chars "/obsidian_append ") (chars "/obsidian_append " ++ pyLower w) = true from rfl]
  simp only [Bool.false_eq_true, if_false, if_true]
  rw [show pyDropPre (chars "/obsidian_append ") (chars "/obsidian_append " ++ pyLower w) =
    pyLower w from List.drop_left _ _]
  exact appendBranch_single_token (pyLower_nonspace hns)

theorem dispatch_patch_three_tokens {w1 w2 w3 : List Char} (h10 : w1 ≠ []) (h30 : w3 ≠ [])
    (h1 : ∀ c ∈ w1, isPySpace c = false) (h2 : ∀ c ∈ w2, isPySpace c = false)
    (h3 : ∀ c ∈ w3, isPySpace c = false) :
    dispatch (chars "/obsidian_patch " ++ (w1 ++ ' ' :: (w2 ++ ' ' :: w3))) = .usagePatch := by
  show dispatchOn (pyLower (pyStrip (chars "/obsidian_patch " ++ (w1 ++ ' ' :: (w2 ++ ' ' :: w3))))) = _
  have hrev : ∃ y u, (w1 ++ ' ' :: (w2 ++ ' ' :: w3)).reverse = y :: u ∧ isPySpace y = false := by
    rw [show w1 ++ ' ' :: (w2 ++ ' ' :: w3) = (w1 ++ ' ' :: w2 ++ [' ']) ++ w3 by simp]
    exact rev_head_of_append_right (rev_head_nonspace h30 h3)
  have hstrip : pyStrip (chars "/obsidian_patch " ++ (w1 ++ ' ' :: (w2 ++ ' ' :: w3))) =
      chars "/obsidian_patch " ++ (w1 ++ ' ' :: (w2 ++ ' ' :: w3)) := by
    apply pyStrip_eq_self_of_ends
    · exact ⟨'/', chars "obsidian_patch " ++ (w1 ++ ' ' :: (w2 ++ ' ' :: w3)), rfl, by decide⟩
    · exact rev_head_of_append_right hrev
  rw [hstrip, pyLower_append]
  rw [show pyLower (chars "/obsidian_patch ") = chars "/obsidian_patch " from by decide]
  have hlw : pyLower (w1 ++ ' ' :: (w2 ++ ' ' :: w3)) =
      pyLower w1 ++ ' ' :: (pyLower w2 ++ ' ' :: pyLower w3) := by
    simp [pyLower, show pyLowerChar ' ' = ' ' from rfl]
  rw [hlw]
  unfold dispatchOn
  rw [show pyStartswith (chars "/help") (chars "/obsidian_patch " ++ (pyLower w1 ++ ' ' :: (pyLower w2 ++ ' ' :: pyLower w3))) = false from rfl]
  rw [show pyStartswith (chars "/obsidian_list_all") (chars "/obsidian_patch " ++ (pyLower w1 ++ ' ' :: (pyLower w2 ++ ' ' :: pyLower w3))) = false from rfl]
  rw [show pyStartswith (chars "/obsidian_list_dir ") (chars "/obsidian_patch " ++ (pyLower w1 ++ ' ' :: (pyLower w2 ++ ' ' :: pyLower w3))) = false from rfl]
  rw [show pyStartswith (chars "/obsidian_get_content ") (chars "/obsidian_patch " ++ (pyLower w1 ++ ' ' :: (pyLower w2 ++ ' ' :: pyLower w3))) = false from rfl]
  rw [show pyStartswith (chars "/obsidian_append ") (chars "/obsidian_patch " ++ (pyLower w1 ++ ' ' :: (pyLower w2 ++ ' ' :: pyLower w3))) = false from rfl]
  rw [show pyStartswith (chars "/obsidian_patch ") (chars "/obsidian_patch " ++ (pyLower w1 ++ ' ' :: (pyLower w2 ++ ' ' :: pyLower w3))) = true from rfl]
  simp only [Bool.false_eq_true, if_false, if_true]
  rw [show pyDropPre (chars "/obsidian_patch ") (chars "/obsidian_patch " ++ (pyLower w1 ++ ' ' :: (pyLower w2 ++ ' ' :: pyLower w3))) =
    pyLower w1 ++ ' ' :: (pyLower w2 ++ ' ' :: pyLower w3) from List.drop_left _ _]
  exact patchBranch_three_tokens (pyLower_nonspace h1) (pyLower_nonspace h2)
    (pyLower_nonspace h3) (by simpa [pyLower] using h10) (by simpa [pyLower] using h30)

theorem dispatch_keyword_ws_unrecognized {ws : List Char}
    (hws : ∀ c ∈ ws, isPySpace c = true) :
    dispatch (chars "/obsidian_list_dir" ++ ws) = .unrecognized ∧
    dispatch (chars "/obsidian_get_content" ++ ws) = .unrecognized ∧
    dispatch (chars "/obsidian_search" ++ ws) = .unrecognized ∧
    dispatch (chars "/obsidian_delete" ++ ws) = .unrecognized ∧
    dispatch (chars "/docker_create" ++ ws) = .unrecognized := by
  refine ⟨?_, ?_, ?_, ?_, ?_⟩
  · show dispatchOn (pyLower (pyStrip (chars "/obsidian_list_dir" ++ ws))) = _
    rw [show chars "/obsidian_list_dir" = '/' :: chars "obsidian_list_dir" from rfl]
    rw [pyStrip_append_ws (by decide) hws (by decide)]
    decide
  · show dispatchOn (pyLower (pyStrip (chars "/obsidian_get_content" ++ ws))) = _
    rw [show chars "/obsidian_get_content" = '/' :: chars "obsidian_get_content" from rfl]
    rw [pyStrip_append_ws (by decide) hws (by decide)]
    decide
  · show dispatchOn (pyLower (pyStrip (chars "/obsidian_search" ++ ws))) = _
    rw [show chars "/obsidian_search" = '/' :: chars "obsidian_search" from rfl]
    rw [pyStrip_append_ws (by decide) hws (by decide)]
    decide
  · show dispatchOn (pyLower (pyStrip (chars "/obsidian_delete" ++ ws))) = _
    rw [show chars "/obsidian_delete" = '/' :: chars "obsidian_delete" from rfl]
    rw [pyStrip_append_ws (by decide) hws (by decide)]
    decide
  · show dispatchOn (pyLower (pyStrip (chars "/docker_create" ++ ws))) = _
    rw [show chars "/docker_create" = '/' :: chars "docker_create" from rfl]
    rw [pyStrip_append_ws (by decide) hws (by decide)]
    decide

/-- C3 counterexample: the input `/obsidian_list_dir` supplies one argument
fewer than the documented minimum (one), yet the dispatch result is the
generic unrecognized-command outcome — not the command's usage message —
because every argument-taking prefix test requires a trailing space that
the stripped input lacks. -/
theorem C3_missing_arg_not_usage :
    dispatch (chars "/obsidian_list_dir") = Cmd.unrecognized := by decide

/-- C3 amended: only `/obsidian_append` and `/obsidian_patch` guard their
argument extraction, so only they produce usage messages: one non-space
token after `/obsidian_append `, or three space-separated tokens after
`/obsidian_patch `, yield the respective usage result; for the
single-argument commands, an input consisting of the bare keyword (plus
optional trailing whitespace) fails the prefix match — which requires a
trailing space — and yields the generic unrecognized result instead of a
usage message; no input raises an index error (extraction is total).
When all documented arguments are present, each command extracts exactly
the documented count, the final argument keeping embedded spaces. -/
theorem C3_amended_missing_arg_behavior :
    (∀ w : List Char, w ≠ [] → (∀ c ∈ w, isPySpace c = false) →
      dispatch (chars "/obsidian_append " ++ w) = .usageAppend) ∧
    (∀ w1 w2 w3 : List Char, w1 ≠ [] → w3 ≠ [] →
      (∀ c ∈ w1, isPySpace c = false) → (∀ c ∈ w2, isPySpace c = false) →
      (∀ c ∈ w3, isPySpace c = false) →
      dispatch (chars "/obsidian_patch " ++ (w1 ++ ' ' :: (w2 ++ ' ' :: w3))) = .usagePatch) ∧
    (∀ ws : List Char, (∀ c ∈ ws, isPySpace c = true) →
      dispatch (chars "/obsidian_list_dir" ++ ws) = .unrecognized ∧
      dispatch (chars "/obsidian_get_content" ++ ws) = .unrecognized ∧
      dispatch (chars "/obsidian_search" ++ ws) = .unrecognized ∧
      dispatch (chars "/obsidian_delete" ++ ws) = .unrecognized ∧
      dispatch (chars "/docker_create" ++ ws) = .unrecognized) ∧
    dispatch (chars "/obsidian_list_dir notes") = .listDir (chars "notes") ∧
    dispatch (chars "/obsidian_append a.md hello world") =
      .appendCmd (chars "a.md") (chars "hello world") ∧
    dispatch (chars "/obsidian_patch a.md heading h2 new text here") =
      .patchCmd (chars "a.md") (chars "heading") (chars "h2") (chars "new text here") := by
  refine ⟨?_, ?_, ?_, by decide, by decide, by decide⟩
  · intro w h0 hns
    exact dispatch_append_one_token h0 hns
  · intro w1 w2 w3 h10 h30 h1 h2 h3
    exact dispatch_patch_three_tokens h10 h30 h1 h2 h3
  · intro ws hws
    exact dispatch_keyword_ws_unrecognized hws

/-- C3 witness: the amended theorem applied at concrete inputs —
`/obsidian_append x.md` yields the append usage message,
`/obsidian_patch a.md heading h2` yields the patch usage message, and the
bare `/obsidian_list_dir` yields the unrecognized result. -/
theorem C3_amended_missing_arg_behavior_witness :
    dispatch (chars "/obsidian_append " ++ chars "x.md") = .usageAppend ∧
    dispatch (chars "/obsidian_patch " ++ (chars "a.md" ++ ' ' :: (chars "heading" ++ ' ' :: chars "h2"))) = .usagePatch ∧
    dispatch (chars "/obsidian_list_dir" ++ ([] : List Char)) = .unrecognized :=
  ⟨C3_amended_missing_arg_behavior.1 (chars "x.md") (by decide) (by decide),
   (C3_amended_missing_arg_behavior.2.1 (chars "a.md") (chars "heading") (chars "h2")
     (by decide) (by decide) (by decide) (by decide) (by decide)),
   ((C3_amended_missing_arg_behavior.2.2.1 ([] : List Char) (by decide)).1)⟩

/-- C7 counterexample: a first response whose message carries no
`tool_calls` list but does carry the legacy `tool` key enters the
tool-call branch: the turn issues two inference requests and stores a
tool message, instead of appending the content as the single assistant
message. -/
theorem C7_legacy_tool_key_counterexample :
    (mkResp "hello" none (some ⟨⟨"list_files", some (.pyObj [])⟩⟩)).message.tool_calls = none ∧
    envLegacyTool.firstResp = .ok (mkResp "hello" none (some ⟨⟨"list_files", some (.pyObj [])⟩⟩)) ∧
    (processTurn envLegacyTool [] "hi").requests = 2 ∧
    countRole .tool (processTurn envLegacyTool [] "hi").messages = 1 :=
  ⟨rfl, rfl, rfl, rfl⟩

/-- C7 amended: whenever the client-side parse of the first response finds
no tool call — the `tool_calls` key absent and the legacy `tool` key
absent, or `tool_calls` present but empty — the turn appends the
response's content as exactly one assistant message and issues no second
inference request. -/
theorem C7_no_tool_call_single_assistant (env : TurnEnv) (msgs0 : List Msg)
    (prompt : String) (data : ChatResp) (hf : env.firstResp = .ok data)
    (hp : parsedToolCall data.message = none) :
    processTurn env msgs0 prompt =
      ⟨msgs0 ++ [userMsg prompt, asstMsg data.message.content], [], none, 1⟩ := by
  unfold processTurn
  rw [hf]
  dsimp only
  rw [hp]
  simp

/-- C7 witness: a first response with an empty `tool_calls` list (and a
content string) yields exactly the user and assistant messages with one
request. -/
theorem C7_no_tool_call_single_assistant_witness :
    processTurn ⟨.ok (mkResp "hey" (some []) none), jsonLoadsNone, adapterConst "", .ok ""⟩
        [] "q" =
      ⟨[userMsg "q", asstMsg "hey"], [], none, 1⟩ :=
  C7_no_tool_call_single_assistant _ [] "q" (mkResp "hey" (some []) none) rfl rfl

theorem toolOkFrom_append (l t : List Msg) (b : Bool) :
    toolOkFrom b (l ++ t) = (toolOkFrom b l && toolOkFrom (endU b l) t) := by
  induction l generalizing b with
  | nil => simp [toolOkFrom, endU]
  | cons m rest ih => simp [toolOkFrom, endU, ih, Bool.and_assoc]

theorem toolOk_append_turn {l : List Msg} (h : toolOk l = true) {t : List Msg}
    (ht : ∀ b, toolOkFrom b t = true) : toolOk (l ++ t) = true := by
  unfold toolOk at *
  rw [toolOkFrom_append, h, ht]
  rfl

theorem processTurn_shape (env : TurnEnv) (msgs0 : List Msg) (prompt : String) :
    (∃ e, processTurn env msgs0 prompt = ⟨msgs0 ++ [userMsg prompt], [], some e, 1⟩) ∨
    (∃ c, processTurn env msgs0 prompt =
      ⟨msgs0 ++ [userMsg prompt, asstMsg c], [], none, 1⟩) ∨
    (processTurn env msgs0 prompt =
      ⟨msgs0 ++ [userMsg prompt], [], some "json.decoder.JSONDecodeError", 1⟩) ∨
    (∃ err, processTurn env msgs0 prompt = ⟨msgs0 ++ [userMsg prompt], [err], none, 1⟩) ∨
    (∃ n r err, processTurn env msgs0 prompt =
      ⟨msgs0 ++ [userMsg prompt, toolMsg n r], [err], none, 2⟩) ∨
    (∃ n r f, processTurn env msgs0 prompt =
      ⟨msgs0 ++ [userMsg prompt, toolMsg n r, asstMsg f], [], none, 2⟩) := by
  unfold processTurn
  rcases hE : env.firstResp with e | data
  · exact Or.inl ⟨e, rfl⟩
  · dsimp only
    rcases hP : parsedToolCall data.message with _ | tc
    · exact Or.inr (Or.inl ⟨data.message.content, by simp⟩)
    · dsimp only
      rcases hD : decodeArgs env.jsonLoads (tc.function.arguments.getD (.pyStr "\x7b\x7d")) with _ | d
      · exact Or.inr (Or.inr (Or.inl rfl))
      · dsimp only
        by_cases hReg : FUNCTION_MAP_keys.contains tc.function.name = true
        · rw [if_pos hReg]
          rcases hA : env.adapter tc.function.name d with err | rstr
          · exact Or.inr (Or.inr (Or.inr (Or.inl ⟨_, rfl⟩)))
          · dsimp only
            rcases hF : env.followupResp with err | fin
            · exact Or.inr (Or.inr (Or.inr (Or.inr (Or.inl
                ⟨tc.function.name, rstr,
                  "Tool call `" ++ tc.function.name ++ "` failed: " ++ err, by simp⟩))))
            · exact Or.inr (Or.inr (Or.inr (Or.inr (Or.inr
                ⟨tc.function.name, rstr, fin, by simp⟩))))
        · rw [if_neg hReg]
          exact Or.inr (Or.inr (Or.inr (Or.inl ⟨_, rfl⟩)))

/-- C2 counterexample: in the reachable store produced by a successful
tool-calling turn started from the seeded system message, the stored tool
message is immediately preceded by the turn's user message — the first
response carrying the tool call is displayed but never stored, so no
assistant message precedes the tool message. -/
theorem C2_tool_preceded_by_user_counterexample :
    ((processTurn envToolOk [sysMsg] "list files").messages.get? 2).map Msg.role =
      some Role.tool ∧
    ((processTurn envToolOk [sysMsg] "list files").messages.get? 1).map Msg.role =
      some Role.user :=
  ⟨rfl, rfl⟩

/-- C2 amended: in every reachable store, every tool message is
immediately preceded by the user message of its turn (never by an
assistant message, since the tool-requesting response is not stored); and
whenever the turn completes the second round-trip without error, the tool
message is immediately followed by the assistant message carrying the
natural-language summary.  No tool message is stored without a turn that
requested it (a turn appends at most one tool message, always directly
after its user message). -/
theorem C2_tool_message_placement (env : TurnEnv) (msgs0 : List Msg) (prompt : String)
    (h : toolOk msgs0 = true) :
    toolOk (processTurn env msgs0 prompt).messages = true ∧
    ((processTurn env msgs0 prompt).requests = 2 ∧
        (processTurn env msgs0 prompt).errors = [] →
      ∃ n r f, (processTurn env msgs0 prompt).messages =
        msgs0 ++ [userMsg prompt, toolMsg n r, asstMsg f]) := by
  rcases processTurn_shape env msgs0 prompt with
    ⟨e, hq⟩ | ⟨c, hq⟩ | hq | ⟨err, hq⟩ | ⟨n, r, err, hq⟩ | ⟨n, r, f, hq⟩ <;> rw [hq]
  · exact ⟨toolOk_append_turn h (fun b => by simp [toolOkFrom, userMsg]),
      fun hc => by simp at hc⟩
  · exact ⟨toolOk_append_turn h (fun b => by simp [toolOkFrom, userMsg, asstMsg]),
      fun hc => by simp at hc⟩
  · exact ⟨toolOk_append_turn h (fun b => by simp [toolOkFrom, userMsg]),
      fun hc => by simp at hc⟩
  · exact ⟨toolOk_append_turn h (fun b => by simp [toolOkFrom, userMsg]),
      fun hc => by simp at hc⟩
  · exact ⟨toolOk_append_turn h (fun b => by simp [toolOkFrom, userMsg, toolMsg]),
      fun hc => by simp at hc⟩
  · exact ⟨toolOk_append_turn h (fun b => by simp [toolOkFrom, userMsg, toolMsg, asstMsg]),
      fun _ => ⟨n, r, f, rfl⟩⟩

/-- C2 witness: starting from the seeded system-message store (which
satisfies the placement invariant) with the all-success tool environment,
the invariant still holds afterwards and the store ends user, tool,
assistant. -/
theorem C2_tool_message_placement_witness :
    toolOk [sysMsg] = true ∧
    toolOk (processTurn envToolOk [sysMsg] "list files").messages = true :=
  ⟨rfl, (C2_tool_message_placement envToolOk [sysMsg] "list files" rfl).1⟩

/-- C4 counterexample: a first response whose `tool_calls` list has length
one but names a tool absent from FUNCTION_MAP appends no tool message and
issues only one inference request, refuting the unconditional claim. -/
theorem C4_unknown_tool_counterexample :
    envUnknownTool.firstResp =
      .ok (mkResp "" (some [⟨⟨"nope", some (.pyObj [])⟩⟩]) none) ∧
    (processTurn envUnknownTool [] "hi").requests = 1 ∧
    countRole .tool (processTurn envUnknownTool [] "hi").messages = 0 ∧
    (processTurn envUnknownTool [] "hi").errors = ["Unknown tool requested: nope"] :=
  ⟨rfl, rfl, rfl, rfl⟩

/-- C4 amended: when the first response carries a non-empty `tool_calls`
list whose first entry names a registered tool, its arguments decode, the
adapter invocation succeeds and the follow-up request succeeds, the turn
appends exactly one tool message and exactly one subsequent assistant
message and issues exactly two inference requests. -/
theorem C4_tool_call_success_two_requests (env : TurnEnv) (msgs0 : List Msg)
    (prompt : String) (data : ChatResp) (tc : ToolCall) (rest : List ToolCall)
    (d : ArgMap) (rstr fin : String)
    (hf : env.firstResp = .ok data)
    (htc : data.message.tool_calls = some (tc :: rest))
    (hdec : decodeArgs env.jsonLoads (tc.function.arguments.getD (.pyStr "\x7b\x7d")) = some d)
    (hreg : FUNCTION_MAP_keys.contains tc.function.name = true)
    (had : env.adapter tc.function.name d = .ok rstr)
    (hfu : env.followupResp = .ok fin) :
    processTurn env msgs0 prompt =
      ⟨msgs0 ++ [userMsg prompt, toolMsg tc.function.name rstr, asstMsg fin],
       [], none, 2⟩ := by
  have hp : parsedToolCall data.message = some tc := by
    unfold parsedToolCall
    rw [htc]
    rfl
  unfold processTurn
  rw [hf]
  dsimp only
  rw [hp]
  dsimp only
  rw [hdec]
  dsimp only
  rw [if_pos hreg, had]
  dsimp only
  rw [hfu]
  simp

/-- C4 witness: the all-success environment requesting `list_files` ends
the turn with user, tool and assistant messages and two requests. -/
theorem C4_tool_call_success_two_requests_witness :
    processTurn envToolOk [] "ls" =
      ⟨[userMsg "ls", toolMsg "list_files" "[]", asstMsg "done"], [], none, 2⟩ :=
  C4_tool_call_success_two_requests envToolOk [] "ls"
    (mkResp "" (some [⟨⟨"list_files", some (.pyObj [])⟩⟩]) none)
    ⟨⟨"list_files", some (.pyObj [])⟩⟩ [] [] "[]" "done"
    rfl rfl rfl rfl rfl rfl

/-- C5 counterexample: a tool call whose string argument payload fails to
decode makes `json.loads` raise outside any try/except — the turn ends
with an uncaught exception, no error string of its own, and no tool
message — refuting "caught and surfaced to the user as a human-readable
string". -/
theorem C5_decode_failure_uncaught_counterexample :
    (processTurn envBadArgs [] "hi").raised = some "json.decoder.JSONDecodeError" ∧
    (processTurn envBadArgs [] "hi").errors = [] ∧
    (processTurn envBadArgs [] "hi").messages = [userMsg "hi"] :=
  ⟨rfl, rfl, rfl⟩

/-- C5 amended: a string argument payload that fails to decode aborts the
turn with the `json.loads` exception propagating uncaught (it is raised
before the try/except of the adapter call); the store keeps only the
user's message, no error string is produced by the turn's own handlers,
no retry happens and no second request is issued. -/
theorem C5_decode_failure_propagates (env : TurnEnv) (msgs0 : List Msg)
    (prompt : String) (data : ChatResp) (tc : ToolCall) (s : String)
    (hf : env.firstResp = .ok data)
    (hp : parsedToolCall data.message = some tc)
    (harg : tc.function.arguments = some (.pyStr s))
    (hjl : env.jsonLoads s = none) :
    processTurn env msgs0 prompt =
      ⟨msgs0 ++ [userMsg prompt], [], some "json.decoder.JSONDecodeError", 1⟩ := by
  unfold processTurn
  rw [hf]
  dsimp only
  rw [hp]
  dsimp only
  rw [harg]
  dsimp only [Option.getD, decodeArgs]
  rw [hjl]

/-- C5 witness: the bad-argument environment applied to the theorem. -/
theorem C5_decode_failure_propagates_witness :
    processTurn envBadArgs [] "hi" =
      ⟨[userMsg "hi"], [], some "json.decoder.JSONDecodeError", 1⟩ :=
  C5_decode_failure_propagates envBadArgs [] "hi"
    (mkResp "" (some [⟨⟨"list_files", some (.pyStr "not json")⟩⟩]) none)
    ⟨⟨"list_files", some (.pyStr "not json")⟩⟩ "not json" rfl rfl rfl rfl

/-- C1 counterexample: when the follow-up (second) inference request fails,
the tool message appended before it stays in the store — the store is the
pre-turn store plus the user message plus a tool message, refuting "without
mutating the Conversation Store beyond the user's own message". -/
theorem C1_followup_failure_keeps_tool_message :
    (processTurn envFollowFail [] "hi").messages =
      [userMsg "hi", toolMsg "list_files" "[]"] ∧
    (processTurn envFollowFail [] "hi").errors =
      ["Tool call `list_files` failed: HTTPError: 500 Server Error"] ∧
    countRole .tool (processTurn envFollowFail [] "hi").messages = 1 :=
  ⟨rfl, rfl, rfl⟩

/-- C1 amended: a transport failure on the first request aborts the turn
with the exception surfacing to the user (uncaught by the script, shown by
the framework) and leaves the store at the pre-turn store plus the user's
message; a transport failure on the second request aborts the turn with an
error string shown via st.error, but the tool message appended before the
request remains stored — the store ends as pre-turn store plus the user
message plus that turn's tool message. -/
theorem C1_transport_failure_store (env : TurnEnv) (msgs0 : List Msg) (prompt : String) :
    (∀ e, env.firstResp = .error e →
      processTurn env msgs0 prompt = ⟨msgs0 ++ [userMsg prompt], [], some e, 1⟩) ∧
    (∀ data tc d rstr e, env.firstResp = .ok data →
      parsedToolCall data.message = some tc →
      decodeArgs env.jsonLoads (tc.function.arguments.getD (.pyStr "\x7b\x7d")) = some d →
      FUNCTION_MAP_keys.contains tc.function.name = true →
      env.adapter tc.function.name d = .ok rstr →
      env.followupResp = .error e →
      processTurn env msgs0 prompt =
        ⟨msgs0 ++ [userMsg prompt, toolMsg tc.function.name rstr],
         ["Tool call `" ++ tc.function.name ++ "` failed: " ++ e], none, 2⟩) := by
  constructor
  · intro e hf
    unfold processTurn
    rw [hf]
  · intro data tc d rstr e hf hp hdec hreg had hfu
    unfold processTurn
    rw [hf]
    dsimp only
    rw [hp]
    dsimp only
    rw [hdec]
    dsimp only
    rw [if_pos hreg, had]
    dsimp only
    rw [hfu]
    simp

/-- C1 witness: both failure modes at concrete environments — the
first-request failure leaves only the user message; the follow-up failure
leaves the user and tool messages. -/
theorem C1_transport_failure_store_witness :
    processTurn envFirstFail [] "hi" =
      ⟨[userMsg "hi"], [], some "ConnectionError", 1⟩ ∧
    processTurn envFollowFail [] "hi" =
      ⟨[userMsg "hi", toolMsg "list_files" "[]"],
       ["Tool call `list_files` failed: HTTPError: 500 Server Error"], none, 2⟩ :=
  ⟨(C1_transport_failure_store envFirstFail [] "hi").1 "ConnectionError" rfl,
   (C1_transport_failure_store envFollowFail [] "hi").2
     (mkResp "" (some [⟨⟨"list_files", some (.pyObj [])⟩⟩]) none)
     ⟨⟨"list_files", some (.pyObj [])⟩⟩ [] "[]" "HTTPError: 500 Server Error"
     rfl rfl rfl rfl rfl rfl⟩

/-- C6: a tool-call whose arguments arrive as a string decoding to the
mapping `d` yields exactly the same turn outcome — same adapter
invocation, same stored messages, same result — as the same response with
arguments already structured as `d`. -/
theorem C6_string_args_match_structured (jl : String → Option ArgMap)
    (ad : String → ArgMap → Except String String) (fu : Except String String)
    (msgs0 : List Msg) (prompt content nm s : String) (d : ArgMap)
    (rest : List ToolCall) (tl : Option ToolCall)
    (h : jl s = some d) :
    processTurn ⟨.ok (mkResp content (some (⟨⟨nm, some (.pyStr s)⟩⟩ :: rest)) tl),
        jl, ad, fu⟩ msgs0 prompt =
    processTurn ⟨.ok (mkResp content (some (⟨⟨nm, some (.pyObj d)⟩⟩ :: rest)) tl),
        jl, ad, fu⟩ msgs0 prompt := by
  unfold processTurn
  dsimp only [mkResp, parsedToolCall, List.head?, decodeArgs, Option.getD]
  rw [h]

/-- C6 witness: with a decoder sending "x" to the filename mapping, the
string-payload and structured-payload turns produce identical results. -/
theorem C6_string_args_match_structured_witness :
    processTurn ⟨.ok (mkResp "" (some [⟨⟨"summarize_file", some (.pyStr "x")⟩⟩]) none),
        jsonLoadsX, adapterConst "ok", .ok "done"⟩ [] "p" =
    processTurn ⟨.ok (mkResp "" (some [⟨⟨"summarize_file",
          some (.pyObj [("filename", "a.md")])⟩⟩]) none),
        jsonLoadsX, adapterConst "ok", .ok "done"⟩ [] "p" :=
  C6_string_args_match_structured jsonLoadsX (adapterConst "ok") (.ok "done")
    [] "p" "" "summarize_file" "x" [("filename", "a.md")] [] none rfl

/-- C8 counterexample: a `create_docker_container` invocation with a
working Docker client appends a progress message to the conversation
store before calling the container runtime — an adapter call that mutates
shared session state, refuting "no adapter call mutates the conversation
store". -/
theorem C8_create_docker_mutates_store :
    (create_docker_container ⟨true, .found, .ok, .ok "boring_leibniz" "abc123"⟩
        "alpine" []).2 =
      [asstMsg "Creating container from image `alpine`..."] ∧
    (create_docker_container ⟨true, .found, .ok, .ok "boring_leibniz" "abc123"⟩
        "alpine" []).2 ≠ ([] : List Msg) :=
  ⟨rfl, by decide⟩

/-- C8 amended: every Service Adapter except `create_docker_container`
computes its response from the request outcome alone and leaves the
conversation store unchanged; `create_docker_container`, whenever the
Docker client connects, appends at least one progress message to the
conversation store (and in the source also sets a rerun flag) before
running the container. -/
theorem C8_adapters_stateless_except_docker_create (env : SEnv) (msgs : List Msg) :
    (∀ c : Cmd, (∀ i, c ≠ .dockerCreate i) → (runCmd env c msgs).2 = msgs) ∧
    (∀ i, env.docker.clientOk = true →
      msgs.length < ((runCmd env (.dockerCreate i) msgs).2).length) := by
  constructor
  · intro c hc
    cases c
    case dockerCreate i => exact absurd rfl (hc i)
    all_goals rfl
  · intro i hck
    show msgs.length < ((create_docker_container env.docker (toS i) msgs).2).length
    unfold create_docker_container
    rw [hck]
    simp only [Bool.true_eq_false, if_false]
    rcases env.docker.getImage with _ | _ | e
    · simp
    · rcases env.docker.pull with _ | _ | e <;> simp
    · simp

/-- C8 witness: the vault-listing adapter leaves an example store
unchanged, while `create_docker_container` grows it. -/
theorem C8_adapters_stateless_except_docker_create_witness :
    (runCmd sEnvOk .listAll [userMsg "u"]).2 = [userMsg "u"] ∧
    ([userMsg "u"] : List Msg).length <
      ((runCmd sEnvOk (.dockerCreate (chars "alpine")) [userMsg "u"]).2).length :=
  ⟨(C8_adapters_stateless_except_docker_create sEnvOk [userMsg "u"]).1 .listAll
     (fun i h => by cases h),
   (C8_adapters_stateless_except_docker_create sEnvOk [userMsg "u"]).2
     (chars "alpine") rfl⟩
